import Mathlib

/-!
Verification of the PDF form-field detection engine
(`document_analyzer.py`, `acroform_handler.py`, `pdf_generator.py`).

Coordinates are modelled as rationals (`ℚ`): the Python code computes with
floats, but every operation involved in the claims (comparison, addition,
subtraction, halving, absolute value) is exact on the dyadic inputs at
stake, so `ℚ` is a faithful model of the arithmetic the claims exercise.
-/

/-- A detected horizontal line `(x0, x1, y)`, as produced by
`_detect_horizontal_lines_pymupdf` / `_detect_horizontal_lines_opencv`. -/
structure DLine where
  x0 : ℚ
  x1 : ℚ
  y : ℚ
deriving DecidableEq, Repr

/-- Duplicate test of `_merge_detected_lines` (document_analyzer.py:390):
`abs(y - ey) < tolerance_y and abs(x0 - ex0) < tolerance_x and abs(x1 - ex1) < tolerance_x`
with `tolerance_y = 4`, `tolerance_x = 10`. `e` is the accepted line, `l` the candidate. -/
def isDupOf (e l : DLine) : Bool :=
  decide (|l.y - e.y| < 4) && decide (|l.x0 - e.x0| < 10) && decide (|l.x1 - e.x1| < 10)

/-- The bounded backward scan of `_merge_detected_lines`
(document_analyzer.py:382-392), iterating over the accepted list from its
end: it receives `merged.reverse` and stops (returns false) as soon as
`y - ey > tolerance_y`. -/
def scanBack (l : DLine) : List DLine → Bool
  | [] => false
  | e :: rest =>
    if l.y - e.y > 4 then false
    else if isDupOf e l then true
    else scanBack l rest

/-- One iteration of the merge loop (document_analyzer.py:376-395): append
the candidate unless the backward scan finds a duplicate. -/
def mergeStep (merged : List DLine) (l : DLine) : List DLine :=
  if scanBack l merged.reverse then merged else merged ++ [l]

/-- Stable insertion into a list kept sorted by ascending `y`; equal keys
keep their original relative order, modelling Python's stable `sort`. -/
def insertByY (l : DLine) : List DLine → List DLine
  | [] => [l]
  | h :: t => if l.y < h.y then l :: h :: t else h :: insertByY l t

/-- `all_lines.sort(key=lambda l: l[2])` (document_analyzer.py:370): a
stable sort by ascending `y`. -/
def sortByY (ls : List DLine) : List DLine :=
  ls.foldl (fun acc l => insertByY l acc) []

/-- `_merge_detected_lines(vector_lines, opencv_lines)`
(document_analyzer.py:348-397): concatenate, return `[]` when empty, sort
by `y`, then sweep with the bounded backward scan. -/
def mergeDetectedLines (vectorLines opencvLines : List DLine) : List DLine :=
  let allLines := vectorLines ++ opencvLines
  if allLines.isEmpty then []
  else (sortByY allLines).foldl mergeStep []

/-- One iteration of the merge loop as the spec words it: compare the
candidate against EVERY previously accepted line, with no early break. -/
def mergeStepFull (merged : List DLine) (l : DLine) : List DLine :=
  if merged.any (fun e => isDupOf e l) then merged else merged ++ [l]

/-- The spec-worded merger: identical to `mergeDetectedLines` except that
each candidate is compared against every previously accepted line. -/
def mergeDetectedLinesFull (vectorLines opencvLines : List DLine) : List DLine :=
  let allLines := vectorLines ++ opencvLines
  if allLines.isEmpty then []
  else (sortByY allLines).foldl mergeStepFull []


/-! ### Label-line associator (`_find_closest_line`, `_find_closest_line_below`,
and the box construction of `_extract_visual_fields`) -/

/-- A label bounding box `(x0, y0, x1, y1)` in page points, y from top. -/
structure BBox where
  x0 : ℚ
  y0 : ℚ
  x1 : ℚ
  y1 : ℚ
deriving DecidableEq, Repr

/-- A field bounding box `{x, y, w, h}` in page points. -/
structure FieldBox where
  x : ℚ
  y : ℚ
  w : ℚ
  h : ℚ
deriving DecidableEq, Repr

/-- `_find_closest_line(label_bbox, lines, search_right, search_below)`
(document_analyzer.py:399-444). The running minimum (Python starts at
infinity and keeps strict improvements) is modelled with an `Option`
carrying the best line and its score. Python's `0.5` is the exact dyadic
one half. -/
def findClosestLine (bb : BBox) (lines : List DLine)
    (searchRight searchBelow : Bool) : Option DLine :=
  let centerY := (bb.y0 + bb.y1) / 2
  (lines.foldl (fun best line =>
    let vd := |line.y - centerY|
    let isRight := if searchRight then decide (line.x0 ≥ bb.x0 - 10) else true
    let isBelow := if searchBelow then decide (line.y ≥ bb.y0 - 5) else true
    if decide (vd < 25) && isRight && isBelow then
      let hd := max 0 (line.x0 - bb.x1)
      let td := vd + hd * (1 / 2)
      match best with
      | none => some (line, td)
      | some (bl, bd) => if td < bd then some (line, td) else some (bl, bd)
    else best) none).map (fun p => p.1)

/-- `_find_closest_line_below(label_bbox, lines)`
(document_analyzer.py:446-497). Python's literal `0.3` (a float slightly
below 3/10) is modelled as the rational 3/10; no claim depends on the
scoring constant's low-order bits. -/
def findClosestLineBelow (bb : BBox) (lines : List DLine) : Option DLine :=
  (lines.foldl (fun best line =>
    if line.y < bb.y1 then best
    else
      let vd := line.y - bb.y1
      if vd > 30 then best
      else
        let overlap := min line.x1 bb.x1 - max line.x0 bb.x0
        let hd := if overlap > 0 then 0
                  else min (|line.x0 - bb.x1|) (|line.x1 - bb.x0|)
        if hd < 50 then
          let td := vd + hd * (3 / 10)
          match best with
          | none => some (line, td)
          | some (bl, bd) => if td < bd then some (line, td) else some (bl, bd)
        else best
    ) none).map (fun p => p.1)

/-- The two-strategy search of `_extract_visual_fields`
(document_analyzer.py:195-202): same-row-right first, below as fallback. -/
def chosenLine (bb : BBox) (lines : List DLine) : Option DLine :=
  match findClosestLine bb lines true false with
  | some l => some l
  | none => findClosestLineBelow bb lines

/-- The field-box construction of `_extract_visual_fields`
(document_analyzer.py:204-218): exact line coordinates with fixed height
20 when a line is found, estimated box right of the label otherwise. -/
def fieldBoxFor (bb : BBox) (lines : List DLine) : FieldBox :=
  match chosenLine bb lines with
  | some l => { x := l.x0, y := l.y, w := l.x1 - l.x0, h := 20 }
  | none => { x := bb.x1 + 5, y := bb.y0, w := 150, h := bb.y1 - bb.y0 }

/-! ### String helpers for the label extractor (`_extract_label_info`)

Python string primitives used by the source, modelled with structural
recursion over the character list (Lean core's `String.trim`,
`String.split` and friends are well-founded-recursive and do not reduce
in the kernel). `pyToLower` restricts Python's full-Unicode `str.lower`
to ASCII letters and the accented Spanish letters appearing in the
source's keyword, blacklist and truthy-value tables; on every string the
claims quantify over, the two agree. -/

/-- Python `str.lower` on one character, for the alphabet the source uses. -/
def pyToLower (c : Char) : Char :=
  if 'A' ≤ c ∧ c ≤ 'Z' then Char.ofNat (c.toNat + 32)
  else if c = 'Á' then 'á'
  else if c = 'É' then 'é'
  else if c = 'Í' then 'í'
  else if c = 'Ó' then 'ó'
  else if c = 'Ú' then 'ú'
  else if c = 'Ñ' then 'ñ'
  else if c = 'Ü' then 'ü'
  else c

/-- Python `str.lower`. -/
def pyLower (s : String) : String :=
  String.mk (s.toList.map pyToLower)

/-- Python `s.strip()`: drop whitespace from both ends. -/
def pyStrip (s : String) : String :=
  String.mk ((((s.toList.dropWhile Char.isWhitespace).reverse).dropWhile
    Char.isWhitespace).reverse)

/-- Python `ch in s` for a single character. -/
def strHasChar (s : String) (c : Char) : Bool :=
  s.toList.contains c

/-- Python `len(s)`: the number of characters. -/
def strLen (s : String) : Nat :=
  s.toList.length

/-- Python falsiness of a string: `not s` is true exactly on the empty string. -/
def strIsEmpty (s : String) : Bool :=
  s.toList.isEmpty

/-- Character-list version of Python `startswith`. -/
def startsWithL : List Char → List Char → Bool
  | [], _ => true
  | _ :: _, [] => false
  | a :: as, b :: bs => a == b && startsWithL as bs

/-- Character-list version of Python substring containment (`needle in hay`). -/
def containsSubL (needle : List Char) : List Char → Bool
  | [] => needle.isEmpty
  | h :: t => startsWithL needle (h :: t) || containsSubL needle t

/-- Python `needle in hay` on strings. -/
def strContains (hay needle : String) : Bool :=
  containsSubL needle.toList hay.toList

/-- Accumulating splitter for Python `s.split()`: whitespace runs separate
words, empty pieces are dropped. -/
def splitWhitespaceAux : List Char → List Char → List (List Char)
  | [], cur => if cur.isEmpty then [] else [cur.reverse]
  | c :: rest, cur =>
    if c.isWhitespace then
      if cur.isEmpty then splitWhitespaceAux rest []
      else cur.reverse :: splitWhitespaceAux rest []
    else splitWhitespaceAux rest (c :: cur)

/-- Python `s.split()`. -/
def pyWords (s : String) : List String :=
  (splitWhitespaceAux s.toList []).map String.mk

/-- Python `s.split(ch)[0]`: the part before the first occurrence of `ch`
(the whole string when `ch` does not occur). -/
def beforeFirst (ch : Char) (s : String) : String :=
  String.mk (s.toList.takeWhile (fun x => !(x == ch)))

/-- Python `s.isdigit()` (for the ASCII digits the source can meet). -/
def pyIsDigit (s : String) : Bool :=
  !s.toList.isEmpty && s.toList.all Char.isDigit

/-- Python `s.rstrip(".")`. -/
def rstripDot (s : String) : String :=
  String.mk ((s.toList.reverse.dropWhile (fun c => c == '.')).reverse)

/-- Python `s.endswith(suffix)`. -/
def endsWithStr (s suffix : String) : Bool :=
  startsWithL suffix.toList.reverse s.toList.reverse

/-! ### Label extractor (`_extract_label_info`, document_analyzer.py:499-615) -/

/-- `palabras_clave_campos` of the colon branch (document_analyzer.py:546-551). -/
def palabrasClaveColon : List String :=
  ["nombre", "apellido", "apellidos", "email", "correo", "teléfono", "telefono",
   "móvil", "movil", "dni", "nif", "nie", "fecha", "sexo", "edad", "dirección",
   "direccion", "ciudad", "provincia", "país", "pais", "cp", "código", "codigo",
   "iban", "cuenta", "banco", "empresa", "cargo", "puesto", "departamento",
   "n iban", "seguridad social"]

/-- `palabras_clave_campos` of the no-colon branch (document_analyzer.py:596-601). -/
def palabrasClaveNoColon : List String :=
  ["nombre", "apellido", "apellidos", "email", "correo", "teléfono", "telefono",
   "móvil", "movil", "dni", "nif", "nie", "fecha", "sexo", "edad", "dirección",
   "direccion", "ciudad", "provincia", "país", "pais", "cp", "código", "codigo",
   "iban", "cuenta", "banco", "empresa", "cargo", "puesto", "departamento"]

/-- `titulos_seccion` (document_analyzer.py:540-541). -/
def titulosSeccion : List String :=
  ["datos personales", "datos fiscales", "documentación solicitada",
   "información básica", "información adicional", "documentos requeridos"]

/-- `sufijos_excluir` (document_analyzer.py:582). -/
def sufijosExcluir : List String :=
  ["ción", "ducción", "miento", "mente", "idad", "ción.", "ducción.", "miento."]

/-- `palabras_excluir` (document_analyzer.py:590). -/
def palabrasExcluir : List String :=
  ["de", "la", "el", "los", "las", "en", "con", "para", "por", "se", "debe", "y", "o"]

/-- The keyword loop: some keyword is a substring of the lowered label. -/
def containsAnyKeyword (kws : List String) (labelLower : String) : Bool :=
  kws.any (fun k => strContains labelLower k)

/-- CASE 1 of `_extract_label_info` (document_analyzer.py:514-558): the
text (already stripped) contains a colon. The keyword loop and the final
line both return `(label, bbox)`; the redundancy of the source is kept. -/
def extractLabelColon (text : String) (bb : BBox) : Option (String × BBox) :=
  let label0 := pyStrip (beforeFirst ':' text)
  if strIsEmpty label0 || strLen label0 < 2 || strLen label0 > 60 then none
  else if (pyWords label0).length > 8 then none
  else
    let parenStep : Option String :=
      if strHasChar label0 '(' then
        let l2 := pyStrip (beforeFirst '(' label0)
        if strIsEmpty l2 || strLen l2 < 2 then none else some l2
      else some label0
    match parenStep with
    | none => none
    | some label1 =>
      if strHasChar label1 ')' && !(strHasChar (beforeFirst ':' text) '(') then none
      else if titulosSeccion.contains (pyLower label1) then none
      else if containsAnyKeyword palabrasClaveColon (pyLower label1) then some (label1, bb)
      else some (label1, bb)

/-- CASE 2 of `_extract_label_info` (document_analyzer.py:560-615): no
colon. The source re-strips `text` here (`label = text.strip()`); the
caller has already stripped it, and Python `strip` is idempotent, so the
argument is used directly. -/
def extractLabelNoColon (text : String) (bb : BBox) (fontSize : ℚ) : Option (String × BBox) :=
  let label := text
  if strIsEmpty label || strLen label < 2 || strLen label > 25 then none
  else if (pyWords label).length > 4 then none
  else if pyIsDigit label || strLen label == 1 then none
  else if strHasChar label '(' || strHasChar label ')' then none
  else
    let labelSinPunto := rstripDot label
    if sufijosExcluir.contains (pyLower label) ||
       sufijosExcluir.contains (pyLower labelSinPunto) then none
    else if endsWithStr (pyLower labelSinPunto) "ción" && strLen labelSinPunto < 10 then none
    else if palabrasExcluir.contains (pyLower label) then none
    else if containsAnyKeyword palabrasClaveNoColon (pyLower label) then some (label, bb)
    else if fontSize > 0 then
      if fontSize > 14 || fontSize < 5 then none else some (label, bb)
    else some (label, bb)

/-- `_extract_label_info(text, bbox, font_size)` (document_analyzer.py:499-615). -/
def extractLabelInfo (text : String) (bb : BBox) (fontSize : ℚ) : Option (String × BBox) :=
  let t := pyStrip text
  if strHasChar t ':' then extractLabelColon t bb
  else extractLabelNoColon t bb fontSize

/-- The lexical filters of the no-colon branch that run BEFORE the keyword
check (document_analyzer.py:564-592), as one predicate on the stripped token. -/
def noColonLexFiltersPass (label : String) : Bool :=
  !(strIsEmpty label || strLen label < 2 || strLen label > 25) &&
  !((pyWords label).length > 4) &&
  !(pyIsDigit label || strLen label == 1) &&
  !(strHasChar label '(' || strHasChar label ')') &&
  !(sufijosExcluir.contains (pyLower label) ||
    sufijosExcluir.contains (pyLower (rstripDot label))) &&
  !(endsWithStr (pyLower (rstripDot label)) "ción" && strLen (rstripDot label) < 10) &&
  !(palabrasExcluir.contains (pyLower label))

/-- The claim's notion of the label part: text before the first colon when
there is one, the entire stripped token otherwise, keyword-matched with
the branch's own keyword table. -/
def keywordInLabelPart (text : String) : Bool :=
  let t := pyStrip text
  if strHasChar t ':' then
    containsAnyKeyword palabrasClaveColon (pyLower (pyStrip (beforeFirst ':' t)))
  else
    containsAnyKeyword palabrasClaveNoColon (pyLower t)

/-! ### AcroForm handler (`acroform_handler.py`) -/

/-- A pypdf field object as `_extract_field_data` reads it: name `/T`,
type `/FT`, flags `/Ff`, rectangle `/Rect` in bottom-left-origin PDF
space, default `/V`, options `/Opt`, and owning page `/P` (modelled as
the already-resolved page index that `_get_field_page` computes, `none`
when unresolved). -/
structure PdfFieldObj where
  T : String
  FT : Option String
  Ff : Nat
  Rect : Option (ℚ × ℚ × ℚ × ℚ)
  V : String
  Opt : List String
  P : Option Nat
deriving DecidableEq, Repr

/-- `AcroFormHandler._get_field_type` (acroform_handler.py:117-141). -/
def getFieldType (obj : PdfFieldObj) : String :=
  match obj.FT with
  | none => "text"
  | some ftStr =>
    let base :=
      if ftStr == "/Tx" then "text"
      else if ftStr == "/Btn" then "checkbox"
      else if ftStr == "/Ch" then "dropdown"
      else if ftStr == "/Sig" then "signature"
      else "text"
    if base == "text" && (obj.Ff &&& 4096 != 0) then "multiline" else base

/-- The field dictionary `_extract_field_data` builds (acroform_handler.py:98-112). -/
structure HField where
  label : String
  type : String
  x : ℚ
  y : ℚ
  w : ℚ
  h : ℚ
  page : Nat
  defaultValue : String
  options : List String
  required : Bool
deriving DecidableEq, Repr

/-- `AcroFormHandler._extract_field_data` (acroform_handler.py:60-115):
no rectangle means no field; the absolute position stores
`x = rect[0]`, `y = rect[1]`, `w = rect[2] - rect[0]`, `h = rect[3] - rect[1]`. -/
def extractFieldData (obj : PdfFieldObj) : Option HField :=
  match obj.Rect with
  | none => none
  | some (r0, r1, r2, r3) =>
    some { label := obj.T
           type := getFieldType obj
           x := r0
           y := r1
           w := r2 - r0
           h := r3 - r1
           page := match obj.P with | some i => i | none => 0
           defaultValue := obj.V
           options := obj.Opt
           required := obj.Ff &&& 2 != 0 }

/-- `AcroFormHandler.get_page_dimensions` (acroform_handler.py:181-195):
pages modelled by their `(width, height)` mediaboxes; Letter by default. -/
def getPageDimensions (pages : List (ℚ × ℚ)) (pageNum : Nat) : ℚ × ℚ :=
  match pages.get? pageNum with
  | some wh => wh
  | none => (612, 792)

/-! ### Document analyzer orchestration (`document_analyzer.py`) -/

/-- A PyMuPDF text span (text with its font size). -/
structure Span where
  text : String
  size : ℚ
deriving DecidableEq, Repr

/-- A PyMuPDF text line: bbox plus spans. -/
structure TLine where
  bbox : BBox
  spans : List Span
deriving DecidableEq, Repr

/-- A PyMuPDF text block; `btype = 0` is a text block. -/
structure Block where
  btype : Nat
  lines : List TLine
deriving DecidableEq, Repr

/-- A PyMuPDF form widget: name (empty string models Python's falsy
name), numeric widget type, rectangle in top-left-origin page points, and
`field_value` as the option list the source copies for choice fields. -/
structure Widget where
  fieldName : String
  fieldType : Nat
  rect : BBox
  fieldValue : List String
deriving DecidableEq, Repr

/-- One page of the analyzed document. -/
structure PageData where
  widgets : List Widget
  blocks : List Block
deriving DecidableEq, Repr

/-- The analyzed document: pages plus the metadata title (empty string
models a missing/falsy metadata title). -/
structure PDoc where
  pages : List PageData
  metadataTitle : String
deriving DecidableEq, Repr

/-- `DocumentAnalyzer._map_widget_type` (document_analyzer.py:686-715). -/
def mapWidgetType (t : Nat) : String :=
  if t = 1 then "checkbox"
  else if t = 2 then "checkbox"
  else if t = 3 then "radio"
  else if t = 4 then "text"
  else if t = 5 then "dropdown"
  else if t = 6 then "dropdown"
  else if t = 7 then "signature"
  else "text"

/-- The field dictionary built by the analyzer (document_analyzer.py:118-132). -/
structure AField where
  label : String
  type : String
  x : ℚ
  y : ℚ
  w : ℚ
  h : ℚ
  page : Nat
  column : String
  options : List String
  required : Bool
  validation : String
deriving DecidableEq, Repr

/-- One widget's field record (document_analyzer.py:111-137): the name
falls back to `Campo n` with `n = len(fields) + 1`, the position comes
from the widget rectangle (PyMuPDF, y from top), and options are copied
for dropdown and radio fields. -/
def widgetField (fieldsLen : Nat) (pageNum : Nat) (w : Widget) : AField :=
  let name := if w.fieldName = "" then "Campo " ++ toString (fieldsLen + 1) else w.fieldName
  let ftype := mapWidgetType w.fieldType
  { label := name
    type := ftype
    x := w.rect.x0
    y := w.rect.y0
    w := w.rect.x1 - w.rect.x0
    h := w.rect.y1 - w.rect.y0
    page := pageNum
    column := "full"
    options := if ftype = "dropdown" ∨ ftype = "radio" then w.fieldValue else []
    required := false
    validation := "Ninguno" }

/-- `DocumentAnalyzer._extract_acroform_fields` (document_analyzer.py:93-140). -/
def extractAcroformFields (doc : PDoc) : List AField :=
  doc.pages.enum.foldl (fun fields pg =>
    pg.2.widgets.foldl (fun fields w => fields ++ [widgetField fields.length pg.1 w]) fields) []

/-- `DocumentAnalyzer._detect_title` (document_analyzer.py:648-684):
metadata title when truthy, else the longer-than-5 text of maximum font
size among the first page's spans. -/
def detectTitle (doc : PDoc) : Option String :=
  if doc.metadataTitle ≠ "" then some doc.metadataTitle
  else
    match doc.pages with
    | [] => none
    | p0 :: _ =>
      (p0.blocks.foldl (fun acc blk =>
        if blk.btype = 0 then
          blk.lines.foldl (fun acc ln =>
            ln.spans.foldl (fun acc sp =>
              let t := pyStrip sp.text
              if sp.size > acc.1 ∧ strLen t > 5 then (sp.size, some t) else acc)
              acc) acc
        else acc) ((0 : ℚ), (none : Option String))).2

/-- The `AnalysisResult` dictionary of `analyze_pdf` (document_analyzer.py:75-91). -/
structure AnalysisResult where
  fields : List AField
  title : Option String
  hasAcroform : Bool
  pageCount : Nat
  success : Bool
  error : Option String
deriving DecidableEq, Repr

/-- `DocumentAnalyzer.analyze_pdf` (document_analyzer.py:48-91). Opening
the document and the visual pipeline (`_extract_visual_fields`, which
renders pages through OpenCV) are the fallible steps; they are passed as
`Except` values so that the top-level `try/except` is the explicit outer
match. The second component of the result records whether the visual
pipeline was invoked. -/
def analyzePdf (openDoc : Except String PDoc)
    (visualExtract : PDoc → Except String (List AField)) :
    AnalysisResult × Bool :=
  match openDoc with
  | Except.error e =>
    ({ fields := [], title := none, hasAcroform := false, pageCount := 0,
       success := false, error := some e }, false)
  | Except.ok doc =>
    let acro := extractAcroformFields doc
    if acro.isEmpty then
      match visualExtract doc with
      | Except.error e =>
        ({ fields := [], title := none, hasAcroform := false, pageCount := 0,
           success := false, error := some e }, true)
      | Except.ok vis =>
        ({ fields := vis, title := detectTitle doc, hasAcroform := false,
           pageCount := doc.pages.length, success := true, error := none }, true)
    else
      ({ fields := acro, title := detectTitle doc, hasAcroform := true,
         pageCount := doc.pages.length, success := true, error := none }, false)

/-- The exception raised during the analysis pass, when one is: opening
fails, or the visual pipeline runs and fails. -/
def analysisException (openDoc : Except String PDoc)
    (visualExtract : PDoc → Except String (List AField)) : Option String :=
  match openDoc with
  | Except.error e => some e
  | Except.ok doc =>
    if (extractAcroformFields doc).isEmpty then
      match visualExtract doc with
      | Except.error e => some e
      | Except.ok _ => none
    else none

/-! ### Checkbox emission in the form-field synthesizer (`pdf_generator.py`) -/

/-- The truthy strings of the checkbox branch (pdf_generator.py:363). -/
def truthyStrings : List String :=
  ["yes", "true", "1", "on", "si", "sí", "x"]

/-- The value, appearance-state and flags entries a `Btn` field dictionary
receives (pdf_generator.py:345-364). -/
structure BtnDict where
  V : String
  AS : String
  Ff : Nat
deriving DecidableEq, Repr

/-- The `Btn` branch of `generar_pdf`'s field emission
(pdf_generator.py:345-364): radio widgets select by comparing stripped
lowered default against the option value; non-radio checkboxes are on
exactly when the lowered default is a truthy string. -/
def emitBtnField (isRadio : Bool) (optVal : String) (required : Bool)
    (defaultVal : String) : BtnDict :=
  let ff : Nat := if required then 2 else 0
  if isRadio then
    let isSelected := pyLower (pyStrip defaultVal) == pyLower (pyStrip optVal)
    { V := "/" ++ optVal
      AS := if isSelected then "/" ++ optVal else "/Off"
      Ff := ff ||| 32768 ||| 49152 }
  else
    let isOn := pyLower defaultVal ∈ truthyStrings
    { V := if isOn then "/Yes" else "/Off"
      AS := if isOn then "/Yes" else "/Off"
      Ff := ff }

/-- The two-field document of the end-to-end scenario: one text widget on
each of two pages, no metadata title. -/
def twoFieldDoc : PDoc :=
  { pages :=
      [ { widgets := [⟨"nombre", 4, ⟨50, 100, 250, 120⟩, []⟩], blocks := [] },
        { widgets := [⟨"email", 4, ⟨50, 200, 250, 220⟩, []⟩], blocks := [] } ],
    metadataTitle := "" }

/-- A visual pipeline that fails if it is ever invoked. -/
def failingVisualPipeline : PDoc → Except String (List AField) :=
  fun _ => Except.error "raster failure"

/-- The field object witnessing the unconverted rectangle: a text field
with `/Rect = [100, 50, 200, 70]` on a Letter-height page. -/
def sampleRawField : PdfFieldObj :=
  { T := "campo1", FT := some "/Tx", Ff := 0, Rect := some (100, 50, 200, 70),
    V := "", Opt := [], P := some 0 }

/-! ### Sortedness facts for the merger -/

/-- Membership in an insertion is membership in the inserted element or the list. -/
theorem mem_insertByY (x l : DLine) (ls : List DLine) :
    x ∈ insertByY l ls ↔ x = l ∨ x ∈ ls := by
  induction ls with
  | nil => simp [insertByY]
  | cons h t ih =>
    by_cases hc : l.y < h.y
    · simp [insertByY, hc]
    · simp [insertByY, hc, ih]
      tauto

/-- Insertion preserves sortedness by ascending `y`. -/
theorem pairwise_insertByY (l : DLine) (ls : List DLine)
    (hs : ls.Pairwise (fun a b => a.y ≤ b.y)) :
    (insertByY l ls).Pairwise (fun a b => a.y ≤ b.y) := by
  induction ls with
  | nil => simp [insertByY]
  | cons h t ih =>
    rcases List.pairwise_cons.mp hs with ⟨hh, ht⟩
    by_cases hc : l.y < h.y
    · simp only [insertByY, if_pos hc]
      refine List.pairwise_cons.mpr ⟨?_, hs⟩
      intro b hb
      rcases List.mem_cons.mp hb with hb | hb
      · subst hb
        exact le_of_lt hc
      · exact le_trans (le_of_lt hc) (hh b hb)
    · simp only [insertByY, if_neg hc]
      refine List.pairwise_cons.mpr ⟨?_, ih ht⟩
      intro b hb
      rcases (mem_insertByY b l t).mp hb with hb | hb
      · subst hb
        exact le_of_not_lt hc
      · exact hh b hb

/-- The sort used by the merger indeed sorts by ascending `y`. -/
theorem pairwise_sortByY (ls : List DLine) :
    (sortByY ls).Pairwise (fun a b => a.y ≤ b.y) := by
  suffices h : ∀ acc, acc.Pairwise (fun a b : DLine => a.y ≤ b.y) →
      (ls.foldl (fun acc l => insertByY l acc) acc).Pairwise (fun a b => a.y ≤ b.y) by
    exact h [] (by simp)
  induction ls with
  | nil => intro acc hacc; simpa using hacc
  | cons l t ih =>
    intro acc hacc
    exact ih (insertByY l acc) (pairwise_insertByY l acc hacc)

/-- On a descending-by-`y` list whose members all lie at or below the
candidate, the early-break backward scan agrees with scanning every
element. -/
theorem scanBack_eq_any (l : DLine) (r : List DLine)
    (hdesc : r.Pairwise (fun a b => b.y ≤ a.y))
    (hle : ∀ e ∈ r, e.y ≤ l.y) :
    scanBack l r = r.any (fun e => isDupOf e l) := by
  induction r with
  | nil => simp [scanBack]
  | cons e rest ih =>
    rcases List.pairwise_cons.mp hdesc with ⟨he, hrest⟩
    by_cases hbrk : l.y - e.y > 4
    · have hdupE : isDupOf e l = false := by
        have h1 : ¬ |l.y - e.y| < 4 := by
          have : (4 : ℚ) < l.y - e.y := hbrk
          have habs : (4 : ℚ) < |l.y - e.y| := lt_of_lt_of_le this (le_abs_self _)
          linarith
        simp [isDupOf, h1]
      have hdupRest : ∀ x ∈ rest, isDupOf x l = false := by
        intro x hx
        have hxy : x.y ≤ e.y := he x hx
        have h1 : ¬ |l.y - x.y| < 4 := by
          have h2 : (4 : ℚ) < l.y - x.y := by linarith
          have habs : (4 : ℚ) < |l.y - x.y| := lt_of_lt_of_le h2 (le_abs_self _)
          linarith
        simp [isDupOf, h1]
      simp only [scanBack, if_pos hbrk, List.any_cons, hdupE, Bool.false_or]
      symm
      simp only [List.any_eq_false]
      intro x hx
      simp [hdupRest x hx]
    · by_cases hdup : isDupOf e l = true
      · simp [scanBack, if_neg hbrk, hdup]
      · have hdup' : isDupOf e l = false := by
          revert hdup; cases isDupOf e l <;> simp
        simp only [scanBack, if_neg hbrk, hdup', if_neg (by simp : ¬ (false = true)),
          List.any_cons, Bool.false_or]
        exact ih hrest (fun x hx => hle x (List.mem_cons_of_mem e hx))

/-- Elements of the merged accumulator come from the accumulator or the
candidates already folded in. -/
theorem mergeStep_subset (merged : List DLine) (l x : DLine)
    (hx : x ∈ mergeStep merged l) : x ∈ merged ∨ x = l := by
  unfold mergeStep at hx
  by_cases h : scanBack l merged.reverse = true
  · rw [if_pos h] at hx
    exact Or.inl hx
  · rw [if_neg h] at hx
    rcases List.mem_append.mp hx with hx | hx
    · exact Or.inl hx
    · simp at hx
      exact Or.inr hx

/-- The folds with early break and with the full scan agree, provided the
remaining candidates are sorted, the accumulator is sorted, and every
accumulator element lies at or below every remaining candidate. -/
theorem foldl_merge_eq (s : List DLine) :
    ∀ merged : List DLine,
      s.Pairwise (fun a b => a.y ≤ b.y) →
      merged.Pairwise (fun a b => a.y ≤ b.y) →
      (∀ e ∈ merged, ∀ l ∈ s, e.y ≤ l.y) →
      s.foldl mergeStep merged = s.foldl mergeStepFull merged := by
  induction s with
  | nil => intro merged _ _ _; rfl
  | cons l rest ih =>
    intro merged hs hm hbound
    rcases List.pairwise_cons.mp hs with ⟨hl, hrest⟩
    have hmem : ∀ e ∈ merged, e.y ≤ l.y := fun e he => hbound e he l (by simp)
    have hscan : scanBack l merged.reverse = merged.any (fun e => isDupOf e l) := by
      have hdesc : merged.reverse.Pairwise (fun a b => b.y ≤ a.y) := by
        rw [List.pairwise_reverse]
        exact hm
      have hle : ∀ e ∈ merged.reverse, e.y ≤ l.y := by
        intro e he
        exact hmem e (List.mem_reverse.mp he)
      rw [scanBack_eq_any l merged.reverse hdesc hle]
      simp
    have hstep : mergeStep merged l = mergeStepFull merged l := by
      unfold mergeStep mergeStepFull
      rw [hscan]
    simp only [List.foldl_cons, hstep]
    apply ih (mergeStepFull merged l) hrest
    · unfold mergeStepFull
      by_cases h : merged.any (fun e => isDupOf e l) = true
      · rw [if_pos h]; exact hm
      · rw [if_neg h]
        rw [List.pairwise_append]
        refine ⟨hm, by simp, ?_⟩
        intro a ha b hb
        simp at hb
        subst hb
        exact hmem a ha
    · intro e he l2 hl2
      have hll2 : l.y ≤ l2.y := hl l2 hl2
      unfold mergeStepFull at he
      by_cases h : merged.any (fun e => isDupOf e l) = true
      · rw [if_pos h] at he
        exact le_trans (hbound e he l (by simp)) hll2
      · rw [if_neg h] at he
        rcases List.mem_append.mp he with he | he
        · exact le_trans (hbound e he l (by simp)) hll2
        · simp at he
          subst he
          exact hll2

/-- The code's merger equals the spec-worded full-scan merger on all inputs. -/
theorem mergeLines_scan_eq_full (v o : List DLine) :
    mergeDetectedLines v o = mergeDetectedLinesFull v o := by
  simp only [mergeDetectedLines, mergeDetectedLinesFull]
  by_cases h : (v ++ o).isEmpty = true
  · rw [if_pos h, if_pos h]
  · rw [if_neg h, if_neg h]
    exact foldl_merge_eq (sortByY (v ++ o)) [] (pairwise_sortByY _) (by simp) (by simp)

/-- C1: when AcroForm extraction yields at least one field, `analyze_pdf`
returns `success = true`, `has_acroform = true`, the fields are exactly the
AcroForm-extracted list, and the visual pipeline is never invoked
(the flag in the second component stays `false` for every possible
visual extractor). -/
theorem analyzePdf_acroform_short_circuit (doc : PDoc)
    (vx : PDoc → Except String (List AField))
    (h : extractAcroformFields doc ≠ []) :
    (analyzePdf (Except.ok doc) vx).1.success = true ∧
    (analyzePdf (Except.ok doc) vx).1.hasAcroform = true ∧
    (analyzePdf (Except.ok doc) vx).1.fields = extractAcroformFields doc ∧
    (analyzePdf (Except.ok doc) vx).2 = false := by
  have hne : (extractAcroformFields doc).isEmpty = false := by
    cases hE : extractAcroformFields doc with
    | nil => exact absurd hE h
    | cons a t => rfl
  simp [analyzePdf, hne]

/-- Witness for C1: the two-text-field document, with a visual pipeline
that would fail were it invoked. -/
theorem analyzePdf_acroform_short_circuit_witness :
    (analyzePdf (Except.ok twoFieldDoc) failingVisualPipeline).1.success = true ∧
    (analyzePdf (Except.ok twoFieldDoc) failingVisualPipeline).1.hasAcroform = true ∧
    (analyzePdf (Except.ok twoFieldDoc) failingVisualPipeline).1.fields =
      extractAcroformFields twoFieldDoc ∧
    (analyzePdf (Except.ok twoFieldDoc) failingVisualPipeline).2 = false :=
  analyzePdf_acroform_short_circuit twoFieldDoc failingVisualPipeline (by decide)

/-- C2: `analyze_pdf` is total; when an exception occurs anywhere in the
pass its message is returned in an all-empty failure dictionary, and
otherwise the call succeeds. -/
theorem analyzePdf_exception_handling (openDoc : Except String PDoc)
    (vx : PDoc → Except String (List AField)) :
    (∀ e, analysisException openDoc vx = some e →
      (analyzePdf openDoc vx).1 =
        { fields := [], title := none, hasAcroform := false, pageCount := 0,
          success := false, error := some e }) ∧
    (analysisException openDoc vx = none → (analyzePdf openDoc vx).1.success = true) := by
  cases openDoc with
  | error e =>
    constructor
    · intro e2 he2
      simp [analysisException] at he2
      subst he2
      rfl
    · intro hcontra
      simp [analysisException] at hcontra
  | ok doc =>
    by_cases hE : (extractAcroformFields doc).isEmpty
    · cases hvx : vx doc with
      | error e =>
        constructor
        · intro e2 he2
          simp [analysisException, hE, hvx] at he2
          subst he2
          simp [analyzePdf, hE, hvx]
        · intro hcontra
          simp [analysisException, hE, hvx] at hcontra
      | ok vis =>
        constructor
        · intro e2 he2
          simp [analysisException, hE, hvx] at he2
        · intro _
          simp [analyzePdf, hE, hvx]
    · constructor
      · intro e2 he2
        simp [analysisException, hE] at he2
      · intro _
        have hne : (extractAcroformFields doc).isEmpty = false := by
          revert hE; cases (extractAcroformFields doc).isEmpty <;> simp
        simp [analyzePdf, hne]

/-- Witness for C2: an unreadable document surfaces its message in the
failure dictionary. -/
theorem analyzePdf_exception_handling_witness :
    (analyzePdf (Except.error "corrupt file") (fun _ => Except.ok [])).1 =
      { fields := [], title := none, hasAcroform := false, pageCount := 0,
        success := false, error := some "corrupt file" } :=
  (analyzePdf_exception_handling (Except.error "corrupt file") (fun _ => Except.ok [])).1
    "corrupt file" rfl

/-- C3: the AcroForm handler stores `y = rect[1]` raw (bottom-left-origin
PDF space); on `/Rect = [100, 50, 200, 70]` with the page height 792 it
stores 50, which is neither `792 - 70` (top edge from top) nor `792 - 50`
(bottom edge from top): the top-left conversion the spec requires never
happens. -/
theorem extractFieldData_stores_bottom_origin_y :
    (extractFieldData sampleRawField).map HField.y = some 50 ∧
    (extractFieldData sampleRawField).map HField.y ≠
      some ((getPageDimensions [(612, 792)] 0).2 - 70) ∧
    (extractFieldData sampleRawField).map HField.y ≠
      some ((getPageDimensions [(612, 792)] 0).2 - 50) := by
  refine ⟨rfl, ?_, ?_⟩ <;> norm_num [extractFieldData, sampleRawField, getPageDimensions]

/-- C4 counterexample: the label part of
`"fecha uno dos tres cuatro cinco seis siete ocho nueve: x"` contains the
recognized keyword `fecha`, yet the extractor rejects the line — the
word-count filter (more than 8 words) runs before the keyword check. -/
theorem keyword_label_rejected_by_word_count :
    keywordInLabelPart "fecha uno dos tres cuatro cinco seis siete ocho nueve: x" = true ∧
    extractLabelInfo "fecha uno dos tres cuatro cinco seis siete ocho nueve: x"
      ⟨0, 0, 10, 10⟩ 10 = none := by
  decide

/-- C4 amended: a keyword-containing label is exempt only from the filters
checked after the keyword test — that is, the font-size bound: the
extractor's verdict is independent of the font size whenever the label
part contains a recognized keyword. The filters checked before the
keyword test (length, word count, digits, parentheses, suffix fragments,
stopwords, section headings) still apply. -/
theorem extractLabelInfo_keyword_fontsize_independent (text : String) (bb : BBox)
    (fs1 fs2 : ℚ) (hk : keywordInLabelPart text = true) :
    extractLabelInfo text bb fs1 = extractLabelInfo text bb fs2 := by
  simp only [extractLabelInfo]
  by_cases hc : strHasChar (pyStrip text) ':' = true
  · simp [hc]
  · have hc' : strHasChar (pyStrip text) ':' = false := by
      revert hc; cases strHasChar (pyStrip text) ':' <;> simp
    simp only [keywordInLabelPart, hc', Bool.false_eq_true, if_false] at hk
    simp only [hc', Bool.false_eq_true, if_false]
    simp only [extractLabelNoColon]
    split_ifs <;> simp_all

/-- Witness for C4 amended: `Nombre` is keyword-accepted at font size 20
(outside the `[5, 14]` band) exactly as at font size 10. -/
theorem extractLabelInfo_keyword_fontsize_independent_witness :
    keywordInLabelPart "Nombre" = true ∧
    extractLabelInfo "Nombre" ⟨0, 0, 10, 10⟩ 20 = extractLabelInfo "Nombre" ⟨0, 0, 10, 10⟩ 10 ∧
    extractLabelInfo "Nombre" ⟨0, 0, 10, 10⟩ 20 = some ("Nombre", ⟨0, 0, 10, 10⟩) :=
  ⟨by decide,
   extractLabelInfo_keyword_fontsize_independent "Nombre" ⟨0, 0, 10, 10⟩ 20 10 (by decide),
   by decide⟩

/-- C5 counterexample: a `/Btn` field whose `/Ff` has the radio flag bit
(32768) set is still mapped to `checkbox`, not `radio` — `_get_field_type`
never inspects the radio flag. -/
theorem getFieldType_btn_radio_flag_ignored :
    getFieldType ⟨"grp", some "/Btn", 32768, some (0, 0, 10, 10), "", [], none⟩ = "checkbox" ∧
    getFieldType ⟨"grp", some "/Btn", 32768, some (0, 0, 10, 10), "", [], none⟩ ≠ "radio" := by
  decide

/-- C5 amended: `_get_field_type` maps `Tx` to text refined to multiline
when flag bit 4096 of `/Ff` is set, `Btn` to checkbox unconditionally
(the radio flag is ignored), `Ch` to dropdown and `Sig` to signature. -/
theorem getFieldType_type_mapping (name : String) (ff : Nat)
    (rect : Option (ℚ × ℚ × ℚ × ℚ)) (v : String) (opt : List String) (p : Option Nat) :
    getFieldType ⟨name, some "/Tx", ff, rect, v, opt, p⟩ =
      (if ff &&& 4096 ≠ 0 then "multiline" else "text") ∧
    getFieldType ⟨name, some "/Btn", ff, rect, v, opt, p⟩ = "checkbox" ∧
    getFieldType ⟨name, some "/Ch", ff, rect, v, opt, p⟩ = "dropdown" ∧
    getFieldType ⟨name, some "/Sig", ff, rect, v, opt, p⟩ = "signature" := by
  refine ⟨?_, ?_, ?_, ?_⟩ <;>
    by_cases h : ff &&& 4096 = 0 <;>
      simp [getFieldType, h, bne]

/-- C6: when either search strategy finds a line, the field box takes the
line's exact horizontal extent and its y with fixed height 20; when no
line is found, the box is the estimate right of the label. -/
theorem fieldBox_from_chosen_line (bb : BBox) (lines : List DLine) :
    (∀ l, chosenLine bb lines = some l →
      fieldBoxFor bb lines = { x := l.x0, y := l.y, w := l.x1 - l.x0, h := 20 }) ∧
    (chosenLine bb lines = none →
      fieldBoxFor bb lines = { x := bb.x1 + 5, y := bb.y0, w := 150, h := bb.y1 - bb.y0 }) := by
  constructor
  · intro l hl
    unfold fieldBoxFor
    rw [hl]
  · intro h
    unfold fieldBoxFor
    rw [h]

/-- Witness for C6: the label at `(50, 100, 120, 112)` with the single
line `(130, 300, 106)` gets box `{x: 130, y: 106, w: 170, h: 20}`, found
by the same-row-right strategy. -/
theorem fieldBox_from_chosen_line_witness :
    findClosestLine ⟨50, 100, 120, 112⟩ [⟨130, 300, 106⟩] true false = some ⟨130, 300, 106⟩ ∧
    fieldBoxFor ⟨50, 100, 120, 112⟩ [⟨130, 300, 106⟩] =
      { x := 130, y := 106, w := 170, h := 20 } := by
  have hfind : findClosestLine ⟨50, 100, 120, 112⟩ [⟨130, 300, 106⟩] true false
      = some ⟨130, 300, 106⟩ := by
    norm_num [findClosestLine, List.foldl, abs_lt]
  have hchosen : chosenLine ⟨50, 100, 120, 112⟩ [⟨130, 300, 106⟩] = some ⟨130, 300, 106⟩ := by
    simp only [chosenLine, hfind]
  have hbox := (fieldBox_from_chosen_line ⟨50, 100, 120, 112⟩ [⟨130, 300, 106⟩]).1
    ⟨130, 300, 106⟩ hchosen
  refine ⟨hfind, ?_⟩
  rw [hbox]
  norm_num

/-- C7: the merger drops a candidate exactly when an already-accepted line
matches it within tolerance in all three coordinates (the bounded scan
being equivalent to comparing with every accepted line); the two
jittered copies of one line merge into one, and two same-height lines
with disjoint horizontal ranges are both kept. -/
theorem mergeDetectedLines_dedup_spec :
    (∀ v o : List DLine, mergeDetectedLines v o = mergeDetectedLinesFull v o) ∧
    mergeDetectedLines [⟨10, 100, 50⟩] [⟨21/2, 99, 51⟩] = [⟨10, 100, 50⟩] ∧
    mergeDetectedLines [⟨10, 50, 50⟩] [⟨200, 250, 50⟩] = [⟨10, 50, 50⟩, ⟨200, 250, 50⟩] := by
  refine ⟨mergeLines_scan_eq_full, ?_, ?_⟩ <;>
    norm_num [mergeDetectedLines, sortByY, insertByY, mergeStep, scanBack, isDupOf,
      List.foldl, abs_lt]

/-- C8: the bounded backward scan with its early break produces exactly
the merged output of comparing each candidate against every previously
accepted line, for every pair of input lists. -/
theorem mergeDetectedLines_early_break_complete (v o : List DLine) :
    mergeDetectedLines v o = mergeDetectedLinesFull v o :=
  mergeLines_scan_eq_full v o

/-- C9: a non-radio checkbox is emitted with `/V = /AS = /Yes` exactly
when the lowered default value is a truthy string, and with `/Off`
otherwise. -/
theorem emitBtn_checkbox_truthy_iff (optVal defaultVal : String) (req : Bool) :
    ((emitBtnField false optVal req defaultVal).V = "/Yes" ↔
      pyLower defaultVal ∈ truthyStrings) ∧
    (emitBtnField false optVal req defaultVal).AS =
      (emitBtnField false optVal req defaultVal).V ∧
    ((emitBtnField false optVal req defaultVal).V = "/Yes" ∨
      (emitBtnField false optVal req defaultVal).V = "/Off") := by
  by_cases h : pyLower defaultVal ∈ truthyStrings <;>
    simp [emitBtnField, h]

/-- C10: in the no-colon branch, a token passing the lexical filters with
no keyword is accepted whenever the average font size is not strictly
positive — the `[5, 14]` band is only enforced for positive font sizes. -/
theorem extractLabelInfo_nonpositive_fontsize_skips_filter (text : String) (bb : BBox)
    (fs : ℚ) (hnc : strHasChar (pyStrip text) ':' = false)
    (hlex : noColonLexFiltersPass (pyStrip text) = true)
    (hnk : containsAnyKeyword palabrasClaveNoColon (pyLower (pyStrip text)) = false)
    (hfs : ¬ 0 < fs) :
    extractLabelInfo text bb fs = some (pyStrip text, bb) := by
  simp only [noColonLexFiltersPass, Bool.and_eq_true, Bool.not_eq_true'] at hlex
  obtain ⟨⟨⟨⟨⟨⟨h1, h2⟩, h3⟩, h4⟩, h5⟩, h6⟩, h7⟩ := hlex
  simp only [extractLabelInfo, hnc, Bool.false_eq_true, if_false]
  simp only [extractLabelNoColon, h1, h2, h3, h4, h5, h6, h7, hnk,
    Bool.false_eq_true, if_false]
  rw [if_neg hfs]
  rw [if_neg (of_decide_eq_false h2)]

/-- Witness for C10: the keyword-free token `XYZW` passes the lexical
filters and is accepted at font size 0. -/
theorem extractLabelInfo_nonpositive_fontsize_skips_filter_witness :
    noColonLexFiltersPass (pyStrip "XYZW") = true ∧
    containsAnyKeyword palabrasClaveNoColon (pyLower (pyStrip "XYZW")) = false ∧
    extractLabelInfo "XYZW" ⟨0, 0, 10, 10⟩ 0 = some (pyStrip "XYZW", ⟨0, 0, 10, 10⟩) :=
  ⟨by decide, by decide,
   extractLabelInfo_nonpositive_fontsize_skips_filter "XYZW" ⟨0, 0, 10, 10⟩ 0
     (by decide) (by decide) (by decide) (lt_irrefl 0)⟩
